import Mathlib

/-!
Shallow embedding of the SmartTemp repository core:
`src/src/smarttemp_engine.py` (SmartTempEngine),
`src/SmartTEMP/src/simple_smarttemp.py` (SimpleSmartTempEngine) and
`src/SmartTEMP/src/llm_intergration.py` (LLMIntegration).

Python floats are modelled as rationals (ℚ); the external sentence-encoder
and the cosine-similarity routine (external libraries: sentence_transformers,
sklearn) are modelled as injected functions that may fail, matching the
spec's "injected dependency" description; HTTP outcomes of the requests
library are modelled as an explicit outcome datatype.
-/

namespace SmartTemp

/-- The analysis dictionary returned by `analyze_prompt`
(`smarttemp_engine.py`, lines 51-57 / 79-85 / 89-96).  The optional
`error` field models the extra `'error'` key added on the exception path. -/
structure AnalysisResult where
  category : String
  confidence : ℚ
  temperature : ℚ
  all_similarities : List (String × ℚ)
  prompt : String
  error : Option String
  deriving DecidableEq, Repr

/-- Constructor arguments of `SmartTempEngine.__init__` /
`SimpleSmartTempEngine.__init__` (`base_temp=0.7, scale_factor=0.3`). -/
structure EngineConfig where
  base_temp : ℚ
  scale_factor : ℚ
  deriving DecidableEq, Repr

/-- Python's builtin `max` on two values: returns the second argument only
when it is strictly greater (the first maximal argument wins). -/
def pyMax (a b : ℚ) : ℚ := if b > a then b else a

/-- Python's builtin `min` on two values: returns the second argument only
when it is strictly smaller (the first minimal argument wins). -/
def pyMin (a b : ℚ) : ℚ := if b < a then b else a

/-- `category_base_temps` dictionary inside
`SmartTempEngine.calculate_temperature` (`smarttemp_engine.py` lines 110-117). -/
def category_base_temps : List (String × ℚ) :=
  [("factual", 1/10),
   ("instructional", 3/10),
   ("analytical", 5/10),
   ("personal", 6/10),
   ("philosophical", 7/10),
   ("creative", 9/10)]

/-- `SmartTempEngine.calculate_temperature` (`smarttemp_engine.py` lines 98-134):
three confidence tiers followed by a clamp to [0.1, 1.0]. -/
def calculate_temperature (e : EngineConfig) (confidence : ℚ) (category : String) : ℚ :=
  let category_base_temp := (List.lookup category category_base_temps).getD e.base_temp
  let temperature :=
    if confidence > 7/10 then
      category_base_temp
    else if confidence > 4/10 then
      let blend_factor := (7/10 - confidence) / (3/10)
      category_base_temp + (8/10 - category_base_temp) * blend_factor
    else
      (8/10 : ℚ)
  pyMax (1/10) (pyMin 1 temperature)

/-- The medium-confidence blend expression of `calculate_temperature`
(`smarttemp_engine.py` lines 128-129), as a function of the base temperature
and the confidence. -/
def mediumBlend (base confidence : ℚ) : ℚ :=
  base + (8/10 - base) * ((7/10 - confidence) / (3/10))

/-- The blank-prompt test `not prompt or not prompt.strip()`
(`smarttemp_engine.py` line 50): true exactly when the prompt is empty or
consists only of whitespace characters (then `prompt.strip()` is empty). -/
def isBlank (s : String) : Bool := s.data.all Char.isWhitespace

/-- Python's builtin `max(items, key=lambda x: x[1])` over an association
list: scans left to right keeping the current maximum, replacing it only on
a strictly greater key, so the first maximum wins; `none` on the empty list
(Python raises `ValueError` there, caught by the surrounding `except`). -/
def maxBySnd : List (String × ℚ) → Option (String × ℚ)
  | [] => none
  | x :: xs => some (xs.foldl (fun best y => if y.2 > best.2 then y else best) x)

/-- The body of the `try:` block of `SmartTempEngine.analyze_prompt`
(`smarttemp_engine.py` lines 59-77): encode the prompt, compute the cosine
similarity against every category embedding, and pick the best category.
The external encoder (`sentence_transformers`) and the external
`cosine_similarity` routine (`sklearn`) are injected fallible functions;
any failure short-circuits to an `Except.error`, modelling the raised
exception caught by the `except` clause. -/
def analysisSteps (encode : String → Except String (List ℚ))
    (cosine_similarity : List ℚ → List ℚ → Except String ℚ)
    (category_embeddings : List (String × List ℚ)) (prompt : String) :
    Except String (List (String × ℚ) × String × ℚ) := do
  let prompt_embedding ← encode prompt
  let similarities ← category_embeddings.mapM (fun ce => do
    let s ← cosine_similarity prompt_embedding ce.2
    pure (ce.1, s))
  match maxBySnd similarities with
  | some best => pure (similarities, best.1, best.2)
  | none => Except.error "max() arg is an empty sequence"

/-- `SmartTempEngine.analyze_prompt` (`smarttemp_engine.py` lines 40-96):
blank prompts short-circuit to the default result; otherwise the analysis
steps run and, on success, the temperature is derived via
`calculate_temperature`; on failure the default result is returned with the
extra `error` field. -/
def analyze_prompt (e : EngineConfig) (encode : String → Except String (List ℚ))
    (cosine_similarity : List ℚ → List ℚ → Except String ℚ)
    (category_embeddings : List (String × List ℚ)) (prompt : String) : AnalysisResult :=
  if prompt = "" ∨ isBlank prompt then
    { category := "analytical", confidence := 1/2, temperature := e.base_temp,
      all_similarities := [], prompt := prompt, error := none }
  else
    match analysisSteps encode cosine_similarity category_embeddings prompt with
    | Except.ok (similarities, category, confidence) =>
        { category := category, confidence := confidence,
          temperature := calculate_temperature e confidence category,
          all_similarities := similarities, prompt := prompt, error := none }
    | Except.error msg =>
        { category := "analytical", confidence := 1/2, temperature := e.base_temp,
          all_similarities := [], prompt := prompt, error := some msg }

end SmartTemp

namespace Simple

open SmartTemp (AnalysisResult EngineConfig pyMax pyMin isBlank)

/-- The keyword pattern table of `SimpleSmartTempEngine.analyze_prompt`
(`simple_smarttemp.py` lines 31-38). -/
def patterns : List (String × List String) :=
  [("factual", ["what", "when", "where", "who", "capital", "population",
                "temperature", "height", "how many"]),
   ("creative", ["write", "story", "poem", "creative", "imagine", "create",
                 "invent", "fiction"]),
   ("instructional", ["how to", "make", "cook", "step", "instructions",
                      "tutorial", "guide", "recipe"]),
   ("analytical", ["compare", "analyze", "explain", "difference", "similar",
                   "contrast", "pros and cons"]),
   ("personal", ["advice", "should i", "help me", "improve", "better",
                 "suggest", "recommend"]),
   ("philosophical", ["why", "meaning", "purpose", "exist", "life",
                      "universe", "ethical"])]

/-- The `category_temps` dictionary of `SimpleSmartTempEngine.analyze_prompt`
(`simple_smarttemp.py` lines 52-59). -/
def category_temps : List (String × ℚ) :=
  [("factual", 1/10), ("instructional", 3/10), ("analytical", 5/10),
   ("personal", 6/10), ("philosophical", 7/10), ("creative", 9/10)]

/-- Python's substring test `needle in hay` on strings, over the character
lists. -/
def strContains (hay needle : String) : Bool :=
  hay.data.tails.any (fun t => needle.data.isPrefixOf t)

/-- `SimpleSmartTempEngine.analyze_prompt` (`simple_smarttemp.py` lines
18-71): rule-based keyword scoring followed by the legacy temperature
formula `base + (1 - confidence) * scale_factor`, clamped to [0.1, 1.0]. -/
def analyze_prompt (e : EngineConfig) (prompt : String) : AnalysisResult :=
  if prompt = "" ∨ isBlank prompt then
    { category := "analytical", confidence := 1/2, temperature := e.base_temp,
      all_similarities := [], prompt := prompt, error := none }
  else
    let prompt_lower := prompt.toLower
    let scores := patterns.map (fun p =>
      (p.1, pyMin 1 ((p.2.countP (fun kw => strContains prompt_lower kw) : ℚ) * (3/10))))
    let bc :=
      if scores.all (fun s => s.2 == 0) then ("analytical", (1/2 : ℚ))
      else (SmartTemp.maxBySnd scores).getD ("analytical", 1/2)
    let base_temp := (List.lookup bc.1 category_temps).getD e.base_temp
    let temperature := base_temp + (1 - bc.2) * e.scale_factor
    { category := bc.1, confidence := bc.2,
      temperature := pyMax (1/10) (pyMin 1 temperature),
      all_similarities := scores, prompt := prompt, error := none }

end Simple

namespace LLM

/-- Outcome of the HTTP `POST {base_url}/api/generate` call made by
`LLMIntegration.generate_response` (`llm_intergration.py` lines 44-80),
as observed by the surrounding `try/except` clauses:
`connectionError` models `requests.exceptions.ConnectionError`;
`requestError` models any other `requests.exceptions.RequestException`
(HTTP error status via `raise_for_status`, timeout, malformed body);
`unexpectedError` models the final `except Exception` clause;
`success` carries the parsed JSON body as string-valued fields. -/
inductive GenerateOutcome where
  | connectionError (msg : String)
  | requestError (msg : String)
  | unexpectedError (msg : String)
  | success (fields : List (String × String))
  deriving DecidableEq, Repr

/-- Round a rational to an integer, ties to even, modelling the rounding
used by Python's fixed-point formatting. -/
def roundHalfEven (q : ℚ) : ℤ :=
  let f := ⌊q⌋
  let r := q - f
  if r < 1/2 then f
  else if 1/2 < r then f + 1
  else if f % 2 = 0 then f else f + 1

/-- Render a number of hundredths as a decimal string with exactly two
digits after the point. -/
def natTwoDec (n : ℕ) : String :=
  toString (n / 100) ++ "." ++
    (if n % 100 < 10 then "0" ++ toString (n % 100) else toString (n % 100))

/-- Python's builtin fixed-point formatting of a float with two decimal
places (the `:.2f` format specifier used in the mock templates). -/
def format2f (q : ℚ) : String :=
  let n := roundHalfEven (q * 100)
  if n < 0 then "-" ++ natTwoDec n.natAbs else natTwoDec n.toNat

/-- An apostrophe character, for the template texts below. -/
def apos : String := String.singleton (Char.ofNat 39)

/-- Opening of the low-temperature template of `_generate_mock_response`
(`llm_intergration.py` line 98), up to the first `{temperature:.2f}`. -/
def factualPre : String := "**Factual Response** (Temperature: "

/-- Middle of the low-temperature template (`llm_intergration.py` lines
98-106): from the first `{temperature:.2f}` to the second one, with the
`{prompt}` interpolation made explicit. -/
def factualMid (prompt : String) : String :=
  ")\n\nBased on your query about \"" ++
    (prompt ++
      "\", here are the key facts:\n\n• Primary Information: Relevant factual data and specific details\n• Supporting Context: Additional background information  \n• Related Facts: Connected information for comprehensive understanding\n\nThis response was generated with low temperature setting (")

/-- Tail of the low-temperature template (`llm_intergration.py` line 106). -/
def factualPost : String :=
  ") to ensure precision, accuracy, and factual correctness. The information is presented in a clear, structured format focusing on verifiable data."

/-- The low-temperature template of `_generate_mock_response`
(`llm_intergration.py` lines 98-106), with `tstr` standing for the
formatted temperature. -/
def factualResponse (prompt tstr : String) : String :=
  factualPre ++ (tstr ++ (factualMid prompt ++ (tstr ++ factualPost)))

/-- Opening of the medium-temperature template (`llm_intergration.py` line
110). -/
def analyticalPre : String := "**Analytical Response** (Temperature: "

/-- Middle of the medium-temperature template (`llm_intergration.py` lines
110-125). -/
def analyticalMid (prompt : String) : String :=
  ")\n\nRegarding your question \"" ++
    (prompt ++
      "\", let me provide a comprehensive analysis:\n\n**Key Perspectives:**\n- One viewpoint considers the technical aspects and practical implications\n- Another perspective examines the broader context and historical background\n- Additional considerations include future trends and potential developments\n\n**Critical Analysis:**\n- The evidence indicates several important factors to consider\n- There are multiple dimensions to this topic worth exploring\n- The balance between different approaches suggests optimal strategies\n\n**Conclusion:**\nThis medium-temperature response (")

/-- Tail of the medium-temperature template (`llm_intergration.py` line
125). -/
def analyticalPost : String :=
  ") aims to provide balanced analysis while maintaining coherence and logical structure. It explores multiple angles while staying focused on the core question."

/-- The medium-temperature template of `_generate_mock_response`
(`llm_intergration.py` lines 110-125). -/
def analyticalResponse (prompt tstr : String) : String :=
  analyticalPre ++ (tstr ++ (analyticalMid prompt ++ (tstr ++ analyticalPost)))

/-- Opening of the high-temperature template (`llm_intergration.py` line
129). -/
def creativePre : String := "**Creative Response** (Temperature: "

/-- Middle of the high-temperature template (`llm_intergration.py` lines
129-139). -/
def creativeMid (prompt : String) : String :=
  ")\n\nAh, \"" ++
    (prompt ++
      ("\" — what a fascinating concept to explore! Let me paint you a picture...\n\nImagine a world where ideas dance like autumn leaves in the wind, each thought branching into new possibilities we" ++
        (apos ++
          ("ve never considered. The very essence of your question sparks a cascade of connections, weaving together threads of insight and imagination in ways that surprise even me.\n\nWhat if we look at this from a completely different angle? Perhaps through the lens of ancient wisdom, or maybe through the futuristic perspective of technologies not yet invented. The boundaries between reality and imagination blur, creating new patterns that invite us to see familiar things in extraordinary ways.\n\nIn this realm of creative exploration, we" ++
            (apos ++
              ("re not just answering a question — we" ++
                (apos ++
                  "re embarking on a journey through landscapes of possibility, where each turn reveals new horizons and unexpected connections.\n\nThis response embraces the spirit of creative exploration with higher temperature setting (")))))))

/-- Tail of the high-temperature template (`llm_intergration.py` line
139). -/
def creativePost : String :=
  "), allowing for more imaginative, varied, and unexpected content generation."

/-- The high-temperature template of `_generate_mock_response`
(`llm_intergration.py` lines 129-139). -/
def creativeResponse (prompt tstr : String) : String :=
  creativePre ++ (tstr ++ (creativeMid prompt ++ (tstr ++ creativePost)))

/-- `LLMIntegration._generate_mock_response` (`llm_intergration.py` lines
82-139): select the template by temperature band.  The `time.sleep`
latency simulation has no effect on the returned text and is not
modelled. -/
def generate_mock_response (prompt : String) (temperature : ℚ) : String :=
  if temperature < 3/10 then factualResponse prompt (format2f temperature)
  else if temperature < 6/10 then analyticalResponse prompt (format2f temperature)
  else creativeResponse prompt (format2f temperature)

/-- `LLMIntegration.generate_response` (`llm_intergration.py` lines 32-80):
on a successful HTTP call return `result.get('response', 'No response
generated')`; on any of the three exception paths return the deterministic
mock response. -/
def generate_response (prompt : String) (temperature : ℚ) (max_tokens : ℕ)
    (outcome : GenerateOutcome) : String :=
  match outcome with
  | GenerateOutcome.success fields =>
      (List.lookup "response" fields).getD "No response generated"
  | GenerateOutcome.connectionError _ => generate_mock_response prompt temperature
  | GenerateOutcome.requestError _ => generate_mock_response prompt temperature
  | GenerateOutcome.unexpectedError _ => generate_mock_response prompt temperature

/-- Outcome of the HTTP `GET {base_url}/api/tags` call made by
`LLMIntegration.get_available_models` (`llm_intergration.py` lines
141-166): `failure` models any exception (connection error, bad status,
malformed body, a model entry without a `name` key); `success` carries the
extracted list of model names, `none` when the `models` field is absent. -/
inductive TagsOutcome where
  | failure (msg : String)
  | success (modelsField : Option (List String))
  deriving DecidableEq, Repr

/-- The fallback model list of `get_available_models`
(`llm_intergration.py` lines 160 and 166). -/
def fallback_models : List String := ["llama2", "mistral", "codellama"]

/-- `LLMIntegration.get_available_models` (`llm_intergration.py` lines
141-166): the names from `data.get('models', [])` when that list is
non-empty, and the fallback list when the call fails or the list comes out
empty. -/
def get_available_models (outcome : TagsOutcome) : List String :=
  match outcome with
  | TagsOutcome.failure _ => fallback_models
  | TagsOutcome.success mf =>
      let models := mf.getD []
      if models.isEmpty then fallback_models else models

/-- Substring containment: `sub` occurs contiguously inside `s`. -/
def containsSubstr (s sub : String) : Prop := ∃ a b, s = a ++ (sub ++ b)

end LLM

namespace SmartTemp

/-- The final clamp `max(0.1, min(1.0, t))` always lands in [0.1, 1.0]. -/
lemma pyClamp_bounds (t : ℚ) :
    1/10 ≤ pyMax (1/10) (pyMin 1 t) ∧ pyMax (1/10) (pyMin 1 t) ≤ 1 := by
  unfold pyMax pyMin
  split_ifs <;> constructor <;> linarith

/-- `calculate_temperature` is the clamp of some value, so is always in
[0.1, 1.0], whatever the configuration, confidence and category. -/
lemma calculate_temperature_bounds (e : EngineConfig) (confidence : ℚ) (category : String) :
    1/10 ≤ calculate_temperature e confidence category ∧
    calculate_temperature e confidence category ≤ 1 := by
  simp only [calculate_temperature]
  exact pyClamp_bounds _

/-- On the fixed category table, `List.lookup` finds the listed base. -/
lemma lookup_category_base (c : String) (b : ℚ) (hmem : (c, b) ∈ category_base_temps) :
    List.lookup c category_base_temps = some b := by
  fin_cases hmem <;> rfl

/-- `calculate_temperature` in terms of a successful base-temperature
lookup. -/
lemma calculate_temperature_lookup (e : EngineConfig) (confidence : ℚ)
    (c : String) (b : ℚ) (hlook : List.lookup c category_base_temps = some b) :
    calculate_temperature e confidence c =
      pyMax (1/10) (pyMin 1 (if confidence > 7/10 then b
        else if confidence > 4/10 then b + (8/10 - b) * ((7/10 - confidence) / (3/10))
        else 8/10)) := by
  simp only [calculate_temperature, hlook, Option.getD_some]

/-- C3: for every category of the fixed table and every confidence in
(0.7, 1.0], `calculate_temperature` returns exactly the category's base
temperature (factual 0.1, instructional 0.3, analytical 0.5, personal 0.6,
philosophical 0.7, creative 0.9), unmodified. -/
theorem calculate_temperature_high_confidence (e : EngineConfig) (confidence : ℚ)
    (c : String) (b : ℚ) (hmem : (c, b) ∈ category_base_temps)
    (h1 : 7/10 < confidence) (h2 : confidence ≤ 1) :
    calculate_temperature e confidence c = b := by
  have hlook := lookup_category_base c b hmem
  simp only [calculate_temperature, hlook, Option.getD_some]
  rw [if_pos h1]
  fin_cases hmem <;> norm_num [pyMax, pyMin]

/-- Witness for C3 at confidence 0.8 and the category `factual`. -/
theorem calculate_temperature_high_confidence_witness :
    (7:ℚ)/10 < 8/10 ∧ (8:ℚ)/10 ≤ 1 ∧
    calculate_temperature ⟨7/10, 3/10⟩ (8/10) "factual" = 1/10 :=
  ⟨by norm_num, by norm_num,
    calculate_temperature_high_confidence ⟨7/10, 3/10⟩ (8/10) "factual" (1/10)
      (List.Mem.head _) (by norm_num) (by norm_num)⟩

/-- C2: for every category of the fixed table and every confidence in
(0.4, 0.7], `calculate_temperature` returns the clamp to [0.1, 1.0] of
`base + (0.8 - base) * ((0.7 - confidence) / 0.3)`. -/
theorem calculate_temperature_medium_blend (e : EngineConfig) (confidence : ℚ)
    (c : String) (b : ℚ) (hmem : (c, b) ∈ category_base_temps)
    (h1 : 4/10 < confidence) (h2 : confidence ≤ 7/10) :
    calculate_temperature e confidence c =
      pyMax (1/10) (pyMin 1 (b + (8/10 - b) * ((7/10 - confidence) / (3/10)))) := by
  have hlook := lookup_category_base c b hmem
  simp only [calculate_temperature, hlook, Option.getD_some]
  rw [if_neg (not_lt.mpr h2), if_pos h1]

/-- Witness for C2 at confidence 0.5 and the category `factual`. -/
theorem calculate_temperature_medium_blend_witness :
    (4:ℚ)/10 < 1/2 ∧ (1:ℚ)/2 ≤ 7/10 ∧
    calculate_temperature ⟨7/10, 3/10⟩ (1/2) "factual" =
      pyMax (1/10) (pyMin 1 (1/10 + (8/10 - 1/10) * ((7/10 - 1/2) / (3/10)))) :=
  ⟨by norm_num, by norm_num,
    calculate_temperature_medium_blend ⟨7/10, 3/10⟩ (1/2) "factual" (1/10)
      (List.Mem.head _) (by norm_num) (by norm_num)⟩

/-- C4: for every category name (known to the table or not) and every
confidence at most 0.4, `calculate_temperature` returns exactly 0.8,
independently of the category and of the configured base temperature. -/
theorem calculate_temperature_low_confidence (e : EngineConfig) (category : String)
    (confidence : ℚ) (h : confidence ≤ 4/10) :
    calculate_temperature e confidence category = 8/10 := by
  simp only [calculate_temperature]
  rw [if_neg (not_lt.mpr (by linarith)), if_neg (not_lt.mpr h)]
  norm_num [pyMax, pyMin]

/-- Witness for C4 at confidence 0.2 and a category name outside the
table. -/
theorem calculate_temperature_low_confidence_witness :
    (1:ℚ)/5 ≤ 4/10 ∧
    calculate_temperature ⟨7/10, 3/10⟩ (1/5) "unknown" = 8/10 :=
  ⟨by norm_num,
    calculate_temperature_low_confidence ⟨7/10, 3/10⟩ "unknown" (1/5) (by norm_num)⟩

/-- C5: the tier policy is continuous at both boundaries: for every
category of the fixed table, the medium-tier blend at confidence 0.7
equals the base temperature (the high-tier value) and at confidence 0.4
equals 0.8 (the low-tier value), and `calculate_temperature` itself agrees
with those values at confidence exactly 0.7 and exactly 0.4. -/
theorem calculate_temperature_boundary_continuity (e : EngineConfig)
    (c : String) (b : ℚ) (hmem : (c, b) ∈ category_base_temps) :
    mediumBlend b (7/10) = b ∧ mediumBlend b (4/10) = 8/10 ∧
    calculate_temperature e (7/10) c = b ∧
    calculate_temperature e (4/10) c = 8/10 := by
  have hlook := lookup_category_base c b hmem
  rw [calculate_temperature_lookup e (7/10) c b hlook,
    calculate_temperature_lookup e (4/10) c b hlook]
  fin_cases hmem <;>
    exact ⟨by norm_num [mediumBlend], by norm_num [mediumBlend],
      by norm_num [pyMax, pyMin], by norm_num [pyMax, pyMin]⟩

/-- Witness for C5 at the category `factual`. -/
theorem calculate_temperature_boundary_continuity_witness :
    mediumBlend (1/10) (7/10) = 1/10 ∧ mediumBlend (1/10) (4/10) = 8/10 ∧
    calculate_temperature ⟨7/10, 3/10⟩ (7/10) "factual" = 1/10 ∧
    calculate_temperature ⟨7/10, 3/10⟩ (4/10) "factual" = 8/10 :=
  calculate_temperature_boundary_continuity ⟨7/10, 3/10⟩ "factual" (1/10)
    (List.Mem.head _)

/-- C1 counterexample: with a configured `base_temp` of 1.5 the empty
prompt is answered with temperature 1.5, outside [0.1, 1.0] — the blank
and error paths of `analyze_prompt` return `self.base_temp` unclamped. -/
theorem analyze_prompt_temperature_unclamped_counterexample :
    (analyze_prompt ⟨3/2, 3/10⟩ (fun _ => Except.error "encoder unavailable")
        (fun _ _ => Except.error "unavailable") [] "").temperature = 3/2 ∧
    ¬ ((3:ℚ)/2 ≤ 1) := by
  constructor
  · simp [analyze_prompt]
  · norm_num

/-- C1 (amended): whenever the configured `base_temp` lies in [0.1, 1.0],
the temperature of every `analyze_prompt` result lies in [0.1, 1.0],
for every prompt (blank included), encoder, similarity routine and
category-embedding table. -/
theorem analyze_prompt_temperature_in_range (e : EngineConfig)
    (h1 : 1/10 ≤ e.base_temp) (h2 : e.base_temp ≤ 1)
    (encode : String → Except String (List ℚ))
    (cosine_similarity : List ℚ → List ℚ → Except String ℚ)
    (category_embeddings : List (String × List ℚ)) (prompt : String) :
    1/10 ≤ (analyze_prompt e encode cosine_similarity category_embeddings prompt).temperature ∧
    (analyze_prompt e encode cosine_similarity category_embeddings prompt).temperature ≤ 1 := by
  unfold analyze_prompt
  by_cases hb : prompt = "" ∨ isBlank prompt
  · rw [if_pos hb]
    exact ⟨h1, h2⟩
  · rw [if_neg hb]
    cases hsteps : analysisSteps encode cosine_similarity category_embeddings prompt with
    | ok triple =>
        obtain ⟨sims, cat, conf⟩ := triple
        exact calculate_temperature_bounds e conf cat
    | error msg =>
        exact ⟨h1, h2⟩

/-- Witness for C1 (amended) at the default configuration and a failing
encoder. -/
theorem analyze_prompt_temperature_in_range_witness :
    1/10 ≤ (analyze_prompt ⟨7/10, 3/10⟩ (fun _ => Except.error "down")
        (fun _ _ => Except.error "down") [] "hello").temperature ∧
    (analyze_prompt ⟨7/10, 3/10⟩ (fun _ => Except.error "down")
        (fun _ _ => Except.error "down") [] "hello").temperature ≤ 1 :=
  analyze_prompt_temperature_in_range ⟨7/10, 3/10⟩ (by norm_num) (by norm_num) _ _ _ _

/-- C6: on an empty or whitespace-only prompt, both engines return
category `analytical`, confidence 0.5, temperature equal to the configured
base temperature, an empty similarity map and the original prompt; the
embedding engine's result does not depend on the encoder, the similarity
routine or the embedding table (no encoder call is made). -/
theorem analyze_prompt_blank_default (e : EngineConfig)
    (encode : String → Except String (List ℚ))
    (cosine_similarity : List ℚ → List ℚ → Except String ℚ)
    (category_embeddings : List (String × List ℚ)) (prompt : String)
    (h : prompt = "" ∨ isBlank prompt) :
    analyze_prompt e encode cosine_similarity category_embeddings prompt =
      { category := "analytical", confidence := 1/2, temperature := e.base_temp,
        all_similarities := [], prompt := prompt, error := none } ∧
    (∀ encode2 cosine2 embeddings2,
      analyze_prompt e encode cosine_similarity category_embeddings prompt =
        analyze_prompt e encode2 cosine2 embeddings2 prompt) ∧
    Simple.analyze_prompt e prompt =
      { category := "analytical", confidence := 1/2, temperature := e.base_temp,
        all_similarities := [], prompt := prompt, error := none } := by
  refine ⟨?_, ?_, ?_⟩
  · rw [analyze_prompt, if_pos h]
  · intro encode2 cosine2 embeddings2
    rw [analyze_prompt, if_pos h, analyze_prompt, if_pos h]
  · rw [Simple.analyze_prompt, if_pos h]

/-- Witness for C6 at the whitespace-only prompt `"   "`. -/
theorem analyze_prompt_blank_default_witness :
    ("   " = "" ∨ isBlank "   ") ∧
    analyze_prompt ⟨7/10, 3/10⟩ (fun _ => Except.ok [1]) (fun _ _ => Except.ok 1) [] "   " =
      { category := "analytical", confidence := 1/2, temperature := 7/10,
        all_similarities := [], prompt := "   ", error := none } :=
  ⟨Or.inr (by decide),
    (analyze_prompt_blank_default ⟨7/10, 3/10⟩ (fun _ => Except.ok [1])
      (fun _ _ => Except.ok 1) [] "   " (Or.inr (by decide))).1⟩

/-- C7: when the prompt is not blank and the encoder (or any later step of
the similarity computation) fails, `analyze_prompt` returns the same
default result as the empty-input case, augmented with the error message,
instead of propagating the failure; a failing encoder always makes the
analysis steps fail with its message. -/
theorem analyze_prompt_failure_default (e : EngineConfig)
    (encode : String → Except String (List ℚ))
    (cosine_similarity : List ℚ → List ℚ → Except String ℚ)
    (category_embeddings : List (String × List ℚ)) (prompt : String) (msg : String)
    (hblank : ¬ (prompt = "" ∨ isBlank prompt))
    (herr : analysisSteps encode cosine_similarity category_embeddings prompt =
      Except.error msg) :
    analyze_prompt e encode cosine_similarity category_embeddings prompt =
      { category := "analytical", confidence := 1/2, temperature := e.base_temp,
        all_similarities := [], prompt := prompt, error := some msg } ∧
    (∀ m, encode prompt = Except.error m →
      analysisSteps encode cosine_similarity category_embeddings prompt =
        Except.error m) := by
  constructor
  · rw [analyze_prompt, if_neg hblank, herr]
  · intro m hm
    rw [analysisSteps, hm]
    rfl

/-- Witness for C7 at the prompt `"hello"` and an encoder failing with
`"boom"`. -/
theorem analyze_prompt_failure_default_witness :
    ¬ ("hello" = "" ∨ isBlank "hello") ∧
    analyze_prompt ⟨7/10, 3/10⟩ (fun _ => Except.error "boom")
        (fun _ _ => Except.error "cos") [] "hello" =
      { category := "analytical", confidence := 1/2, temperature := 7/10,
        all_similarities := [], prompt := "hello", error := some "boom" } :=
  ⟨by decide,
    (analyze_prompt_failure_default ⟨7/10, 3/10⟩ (fun _ => Except.error "boom")
      (fun _ _ => Except.error "cos") [] "hello" "boom" (by decide) rfl).1⟩

end SmartTemp

namespace LLM

/-- A concatenation whose left part is non-empty is non-empty. -/
lemma append_ne_empty (a b : String) (h : a.length ≠ 0) : a ++ b ≠ "" := by
  intro hab
  have hlen : (a ++ b).length = 0 := by rw [hab]; rfl
  rw [String.length_append] at hlen
  omega

/-- Every mock response starts with a non-empty template header, so is
non-empty. -/
lemma generate_mock_response_ne_empty (p : String) (t : ℚ) :
    generate_mock_response p t ≠ "" := by
  unfold generate_mock_response factualResponse analyticalResponse creativeResponse
  split_ifs <;> exact append_ne_empty _ _ (by decide)

/-- `roundHalfEven` is the identity on natural values. -/
lemma roundHalfEven_natCast (k : ℕ) : roundHalfEven (k : ℚ) = k := by
  unfold roundHalfEven
  rw [Int.floor_natCast]
  norm_num

/-- `format2f` on a rational that is exactly `k` hundredths. -/
lemma format2f_eval (q : ℚ) (k : ℕ) (h : q * 100 = (k : ℚ)) :
    format2f q = natTwoDec k := by
  unfold format2f
  rw [h, roundHalfEven_natCast, if_neg (not_lt.mpr (Int.natCast_nonneg k))]
  norm_num

/-- `0.2` formatted with two decimal places is the string `"0.20"`. -/
lemma format2f_one_fifth : format2f (1/5) = "0.20" := by
  rw [format2f_eval (1/5) 20 (by norm_num)]
  decide

/-- C8 counterexample: on a successful backend call whose JSON carries an
empty `response` field, `generate_response` returns the empty string — the
result is not always non-empty. -/
theorem generate_response_empty_success_counterexample :
    generate_response "p" (1/2) 500 (GenerateOutcome.success [("response", "")]) = "" :=
  rfl

/-- C8 (amended): `generate_response` is total and, unless the backend
succeeds with an empty `response` field, returns non-empty text; on every
failure outcome it returns the deterministic mock response, and on a
successful response without a `response` field it returns the placeholder
`"No response generated"`. -/
theorem generate_response_total (prompt : String) (temperature : ℚ) (max_tokens : ℕ)
    (outcome : GenerateOutcome)
    (h : ∀ fields, outcome = GenerateOutcome.success fields →
      List.lookup "response" fields ≠ some "") :
    generate_response prompt temperature max_tokens outcome ≠ "" ∧
    (∀ msg, (outcome = GenerateOutcome.connectionError msg ∨
             outcome = GenerateOutcome.requestError msg ∨
             outcome = GenerateOutcome.unexpectedError msg) →
      generate_response prompt temperature max_tokens outcome =
        generate_mock_response prompt temperature) ∧
    (∀ fields, outcome = GenerateOutcome.success fields →
      List.lookup "response" fields = none →
      generate_response prompt temperature max_tokens outcome = "No response generated") := by
  cases outcome with
  | connectionError m =>
      exact ⟨generate_mock_response_ne_empty prompt temperature,
        fun _ _ => rfl, fun fields hf => nomatch hf⟩
  | requestError m =>
      exact ⟨generate_mock_response_ne_empty prompt temperature,
        fun _ _ => rfl, fun fields hf => nomatch hf⟩
  | unexpectedError m =>
      exact ⟨generate_mock_response_ne_empty prompt temperature,
        fun _ _ => rfl, fun fields hf => nomatch hf⟩
  | success fields =>
      refine ⟨?_, ?_, ?_⟩
      · cases hlook : List.lookup "response" fields with
        | none =>
            simp only [generate_response, hlook]
            decide
        | some v =>
            simp only [generate_response, hlook, Option.getD_some]
            intro hv
            exact h fields rfl (by rw [hlook, hv])
      · intro msg hm
        rcases hm with hm | hm | hm <;> exact nomatch hm
      · intro f hf hlook
        cases hf
        simp only [generate_response, hlook]
        rfl

/-- Witness for C8 (amended) at a connection failure. -/
theorem generate_response_total_witness :
    generate_response "hi" (1/2) 500 (GenerateOutcome.connectionError "refused") ≠ "" ∧
    generate_response "hi" (1/2) 500 (GenerateOutcome.connectionError "refused") =
      generate_mock_response "hi" (1/2) := by
  have h := generate_response_total "hi" (1/2) 500
    (GenerateOutcome.connectionError "refused") (fun fields hf => nomatch hf)
  exact ⟨h.1, h.2.1 "refused" (Or.inl rfl)⟩

/-- C9: the mock generator picks its template by temperature band
(below 0.3 the factual one, in [0.3, 0.6) the analytical one, at or above
0.6 the creative one) and its output always contains the temperature
formatted with two decimals together with the band's framing header. -/
theorem generate_mock_response_bands (prompt : String) (temperature : ℚ) :
    containsSubstr (generate_mock_response prompt temperature) (format2f temperature) ∧
    (temperature < 3/10 →
      containsSubstr (generate_mock_response prompt temperature) "**Factual Response**") ∧
    (3/10 ≤ temperature → temperature < 6/10 →
      containsSubstr (generate_mock_response prompt temperature) "**Analytical Response**") ∧
    (6/10 ≤ temperature →
      containsSubstr (generate_mock_response prompt temperature) "**Creative Response**") := by
  by_cases h1 : temperature < 3/10
  · simp only [generate_mock_response, if_pos h1, factualResponse]
    refine ⟨⟨factualPre, factualMid prompt ++ (format2f temperature ++ factualPost), rfl⟩,
      fun _ => ?_, fun h3 _ => absurd h3 (not_le.mpr h1),
      fun h6 => absurd (h1.trans (by norm_num)) (not_lt.mpr h6)⟩
    exact ⟨"", " (Temperature: " ++ (format2f temperature ++
      (factualMid prompt ++ (format2f temperature ++ factualPost))), rfl⟩
  · by_cases h2 : temperature < 6/10
    · simp only [generate_mock_response, if_neg h1, if_pos h2, analyticalResponse]
      refine ⟨⟨analyticalPre, analyticalMid prompt ++ (format2f temperature ++ analyticalPost),
        rfl⟩, fun h3 => absurd h3 h1, fun _ _ => ?_,
        fun h6 => absurd h2 (not_lt.mpr h6)⟩
      exact ⟨"", " (Temperature: " ++ (format2f temperature ++
        (analyticalMid prompt ++ (format2f temperature ++ analyticalPost))), rfl⟩
    · simp only [generate_mock_response, if_neg h1, if_neg h2, creativeResponse]
      refine ⟨⟨creativePre, creativeMid prompt ++ (format2f temperature ++ creativePost), rfl⟩,
        fun h3 => absurd h3 h1, fun _ h6 => absurd h6 h2, fun _ => ?_⟩
      exact ⟨"", " (Temperature: " ++ (format2f temperature ++
        (creativeMid prompt ++ (format2f temperature ++ creativePost))), rfl⟩

/-- Witness for C9 at an unreachable backend with temperature 0.2: the
fallback text contains the literal substring `"0.20"` and the factual
framing header. -/
theorem generate_mock_response_bands_witness :
    ((1:ℚ)/5 < 3/10) ∧
    containsSubstr (generate_mock_response "backend unreachable" (1/5)) "0.20" ∧
    containsSubstr (generate_mock_response "backend unreachable" (1/5)) "**Factual Response**" := by
  have h := generate_mock_response_bands "backend unreachable" (1/5)
  rw [format2f_one_fifth] at h
  exact ⟨by norm_num, h.1, h.2.1 (by norm_num)⟩

/-- C10: `get_available_models` returns the fixed fallback list both when
the call fails and when it succeeds with an absent or empty `models` list;
for every outcome the returned list is non-empty. -/
theorem get_available_models_fallback :
    (∀ outcome, get_available_models outcome ≠ []) ∧
    (∀ msg, get_available_models (TagsOutcome.failure msg) = fallback_models) ∧
    get_available_models (TagsOutcome.success none) = fallback_models ∧
    get_available_models (TagsOutcome.success (some [])) = fallback_models := by
  refine ⟨?_, fun _ => rfl, rfl, rfl⟩
  intro o
  cases o with
  | failure msg => simp [get_available_models, fallback_models]
  | success mf =>
      cases mf with
      | none => simp [get_available_models, fallback_models]
      | some l =>
          cases l with
          | nil => simp [get_available_models, fallback_models]
          | cons a as => simp [get_available_models]

end LLM

